import Mathlib

/-!
# Verification of the calendar synthesis and caching slice of `unibocalendar`

Shallow embedding of `src/main.go` (handler `getCoursesCal`, helpers
`successCalendar` and `createCal`, the package-level `calcache`) together
with models of the external collaborators the handler consumes
(`CoursesMap.FindById`, `Course.GetTimetable`, `Timetable.ToICS`,
ics serialization, the go-cache store).  Machine integers are modelled as
`Int` (Go `int`, 64-bit) with explicit range checks where the source has
them; fallible calls return `Option`/`Except`.
-/

set_option autoImplicit false

namespace UniboCal

/-- Serialized calendar bytes (`*bytes.Buffer` contents in the source). -/
abbrev Bytes := String

/-- Modelled from the spec: a course as exposed by CourseDirectory — display
name (`Descrizione`) and duration in years (`DurataAnni`).  The `unibo`
package is not part of the shown source; only the two fields the handler
reads are modelled. -/
structure Course where
  descrizione : String
  durataAnni : Int
  deriving DecidableEq, Repr

/-- `unibo.Curriculum`: an optional opaque string token; the zero value
(empty string) means "no filter". -/
structure Curriculum where
  value : String := ""
  deriving DecidableEq, Repr

/-- Modelled from the spec: one lecture event of a timetable slice, with
start/end time, title and location (exact shape owned by TimetableSource). -/
structure Event where
  start : Int
  stop : Int
  title : String
  location : String
  deriving DecidableEq, Repr

/-- `unibo.Timetable`: an ordered sequence of lecture events. -/
abbrev Timetable := List Event

/-- An ics calendar document: name, description, and the embedded events. -/
structure Calendar where
  name : String := ""
  description : String := ""
  events : List Event := []
  deriving DecidableEq, Repr

/-- Modelled from the spec: `Timetable.ToICS` (in the `unibo` package, not
part of the shown source) converts a timetable slice into a calendar whose
events preserve the slice's events and order verbatim; no reordering or
deduplication; name and description are set afterwards by the caller. -/
def Timetable.toICS (t : Timetable) : Calendar :=
  { events := t }

/-- One stored item of the go-cache store: the value and its absolute
expiration instant (time is modelled as `Int` nanoseconds). -/
structure CacheItem where
  value : Bytes
  expiration : Int
  deriving DecidableEq, Repr

/-- The go-cache store (`calcache` in the source): an association from
string keys to items.  Keys are unique: `set` replaces the binding. -/
structure Cache where
  items : List (String × CacheItem)
  deriving DecidableEq, Repr

/-- The empty cache (`cache.New` before any `Set`). -/
def Cache.empty : Cache := ⟨[]⟩

/-- go-cache `Get`: found only if the key is present and not expired
(an item is expired when `now > expiration`). -/
def Cache.get (c : Cache) (k : String) (now : Int) : Option Bytes :=
  match c.items.lookup k with
  | none => none
  | some item => if now > item.expiration then none else some item.value

/-- go-cache `Set` with the default expiration: unconditionally (re)stores
the value and resets its expiry clock to `now + ttl`. -/
def Cache.set (c : Cache) (k : String) (v : Bytes) (now : Int) (ttl : Int) : Cache :=
  ⟨(k, ⟨v, now + ttl⟩) :: c.items.filter (fun p => p.1 ≠ k)⟩

/-- `cache.New(time.Minute*10, ...)`: the default TTL of `calcache`,
10 minutes in nanoseconds. -/
def defaultExpiration : Int := 10 * 60 * 1000000000

/-- Decimal value of a digit run (most significant first). -/
def digitsVal (ds : List Char) : Nat :=
  ds.foldl (fun a ch => a * 10 + (ch.toNat - 48)) 0

/-- Value of a digit run with a sign applied. -/
def signedVal (neg : Bool) (ds : List Char) : Int :=
  if neg then -(digitsVal ds : Int) else (digitsVal ds : Int)

/-- Digit-run parse of Go `strconv.ParseInt` after the sign has been
peeled: at least one decimal digit, nothing else, value within the 64-bit
`int` range; otherwise an error, modelled as `none`. -/
def parseDigits (neg : Bool) (ds : List Char) : Option Int :=
  if ds.isEmpty then none
  else if ds.all Char.isDigit then
    if -(2 ^ 63) ≤ signedVal neg ds ∧ signedVal neg ds ≤ 2 ^ 63 - 1 then
      some (signedVal neg ds)
    else none
  else none

/-- Model of Go `strconv.Atoi`: an optional leading sign followed by the
digit run; the empty string is an error. -/
def atoi (s : String) : Option Int :=
  match s.data with
  | [] => none
  | c0 :: rest =>
    if c0 = '-' then parseDigits true rest
    else if c0 = '+' then parseDigits false rest
    else parseDigits false (c0 :: rest)

/-- External collaborators consumed by the handler, injected as functions:
`CoursesMap.FindById`, `Course.GetTimetable` (both in the `unibo` package,
modelled from the spec), and ics `Calendar.SerializeTo` (third-party
library).  Each is a pure function of its arguments, matching the spec's
read-only/deterministic contract. -/
structure Env where
  findById : Int → Option Course
  getTimetable : Course → Int → Curriculum → Except String Timetable
  serializeTo : Calendar → Except String Bytes

/-- The raw dimensions of a calendar request: the `:id` and `:anno` path
parameters and the `curriculum` query value (empty when absent). -/
structure Request where
  id : String
  anno : String
  curriculum : String := ""
  deriving DecidableEq, Repr

/-- An HTTP response: status, body, headers. -/
structure Response where
  status : Nat
  body : String
  headers : List (String × String)
  deriving DecidableEq, Repr

/-- `gin.Context.String`: a plain-text response. -/
def plainText (status : Nat) (msg : String) : Response :=
  { status := status, body := msg
    headers := [("Content-Type", "text/plain; charset=utf-8")] }

/-- `successCalendar` (main.go:201-210): 200 with the calendar bytes,
calendar content type, attachment filename, permissive CORS headers. -/
def successCalendar (cal : Bytes) : Response :=
  { status := 200, body := cal
    headers :=
      [ ("Content-Type", "text/calendar; charset=utf-8")
      , ("Content-Disposition", "attachment; filename=lezioni.ics")
      , ("Access-Control-Allow-Origin", "*")
      , ("Access-Control-Allow-Headers",
          "Content-Type, Content-Length, Accept-Encoding, Authorization")
      , ("Access-Control-Allow-Methods", "GET, HEAD, OPTIONS") ] }

/-- `createCal` (main.go:212-219): `timetable.ToICS()` then `SetName` with
`"%s - %d year"` and `SetDescription` with
`"Orario delle lezioni del %d anno del corso di %s"`. -/
def createCal (timetable : Timetable) (course : Course) (year : Int) : Calendar :=
  let cal := Timetable.toICS timetable
  { cal with
    name := course.descrizione ++ " - " ++ toString year ++ " year"
    description := "Orario delle lezioni del " ++ toString year ++
      " anno del corso di " ++ course.descrizione }

/-- `cacheKey := fmt.Sprintf("%s-%s", id, anno)` (main.go:141). -/
def cacheKey (id anno : String) : String := id ++ "-" ++ anno

/-- Outcome of one handler invocation: the response, the cache afterwards,
and counters for the observable external effects — cache `Get`s and
`Put`s, `strconv.Atoi` calls, `FindById` lookups, `GetTimetable` fetches. -/
structure HandlerResult where
  response : Response
  cache : Cache
  gets : Nat
  puts : Nat
  parses : Nat
  lookups : Nat
  fetches : Nat
  deriving DecidableEq, Repr

/-- `getCoursesCal` (main.go:136-199), one invocation: cache probe on the
raw `id-anno` key, then year parse, id parse, course lookup, year-range
check, curriculum extraction, timetable fetch, synthesis, serialization,
cache store. -/
def getCoursesCal (env : Env) (now : Int) (calcache : Cache) (c : Request) :
    HandlerResult :=
  match Cache.get calcache (cacheKey c.id c.anno) now with
  | some cal =>
    { response := successCalendar cal, cache := calcache
      gets := 1, puts := 0, parses := 0, lookups := 0, fetches := 0 }
  | none =>
    match atoi c.anno with
    | none =>
      { response := plainText 400 "Invalid year", cache := calcache
        gets := 1, puts := 0, parses := 1, lookups := 0, fetches := 0 }
    | some annoInt =>
      match atoi c.id with
      | none =>
        { response := plainText 400 "Invalid id", cache := calcache
          gets := 1, puts := 0, parses := 2, lookups := 0, fetches := 0 }
      | some idInt =>
        match env.findById idInt with
        | none =>
          { response := plainText 404 "Course not found", cache := calcache
            gets := 1, puts := 0, parses := 2, lookups := 1, fetches := 0 }
        | some course =>
          if annoInt ≤ 0 ∨ annoInt > course.durataAnni then
            { response := plainText 400 "Invalid year", cache := calcache
              gets := 1, puts := 0, parses := 2, lookups := 1, fetches := 0 }
          else
            match env.getTimetable course annoInt
                (if c.curriculum ≠ "" then { value := c.curriculum } else {}) with
            | Except.error _ =>
              { response := plainText 500 "Unable to retrieve timetable"
                cache := calcache
                gets := 1, puts := 0, parses := 2, lookups := 1, fetches := 1 }
            | Except.ok timetable =>
              match env.serializeTo (createCal timetable course annoInt) with
              | Except.error _ =>
                { response := plainText 500 "Unable to serialize calendar"
                  cache := calcache
                  gets := 1, puts := 0, parses := 2, lookups := 1, fetches := 1 }
              | Except.ok buf =>
                { response := successCalendar buf
                  cache := Cache.set calcache (cacheKey c.id c.anno) buf now
                    defaultExpiration
                  gets := 1, puts := 1, parses := 2, lookups := 1, fetches := 1 }

/-- A concrete course used by witnesses: display name "Informatica",
three years. -/
def sampleCourse : Course := { descrizione := "Informatica", durataAnni := 3 }

/-- A concrete lecture event used by witnesses. -/
def sampleEvent1 : Event :=
  { start := 0, stop := 1, title := "Algebra", location := "Aula 1" }

/-- A second concrete lecture event used by witnesses. -/
def sampleEvent2 : Event :=
  { start := 2, stop := 3, title := "Analisi", location := "Aula 2" }

/-- A concrete environment for witnesses: course 42 exists with duration 3,
every other id is unknown; the timetable has two events; serialization
renders the document deterministically. -/
def sampleEnv : Env :=
  { findById := fun i => if i = 42 then some sampleCourse else none
    getTimetable := fun _ _ _ => Except.ok [sampleEvent1, sampleEvent2]
    serializeTo := fun cal =>
      Except.ok ("BEGIN:VCALENDAR|" ++ cal.name ++ "|" ++ cal.description ++
        "|" ++ toString cal.events.length ++ "|END:VCALENDAR") }

/-- An environment whose TimetableSource output depends on the curriculum
token: the single event's title is the token itself, and the serialized
bytes expose it. -/
def curDependentEnv : Env :=
  { findById := fun i => if i = 42 then some sampleCourse else none
    getTimetable := fun _ _ cur =>
      Except.ok [{ start := 0, stop := 1, title := cur.value, location := "" }]
    serializeTo := fun cal =>
      Except.ok (String.intercalate "," (cal.events.map Event.title)) }

/-- A cache entry is the byte-for-byte serialization of a successful
synthesis for its key: the key is the raw `id-anno` fingerprint of some
request whose id and year parse, whose course resolves, and for which
some curriculum produced a timetable whose synthesized calendar
serializes exactly to the stored bytes. -/
def entryOK (env : Env) (k : String) (it : CacheItem) : Prop :=
  ∃ idStr annoStr idInt annoInt course cur timetable,
    k = cacheKey idStr annoStr ∧
    atoi idStr = some idInt ∧
    atoi annoStr = some annoInt ∧
    env.findById idInt = some course ∧
    env.getTimetable course annoInt cur = Except.ok timetable ∧
    env.serializeTo (createCal timetable course annoInt) = Except.ok it.value

/-- Every entry of the cache satisfies `entryOK`. -/
def CacheWF (env : Env) (c : Cache) : Prop :=
  ∀ kv ∈ c.items, entryOK env kv.1 kv.2

/-- Run equation: cache hit. -/
lemma run_hit (env : Env) (now : Int) (calcache : Cache) (req : Request)
    (b : Bytes) (hget : Cache.get calcache (cacheKey req.id req.anno) now = some b) :
    getCoursesCal env now calcache req =
      { response := successCalendar b, cache := calcache
        gets := 1, puts := 0, parses := 0, lookups := 0, fetches := 0 } := by
  unfold getCoursesCal
  rw [hget]

/-- Run equation: cache miss, non-numeric year text. -/
lemma run_invalid_year (env : Env) (now : Int) (calcache : Cache) (req : Request)
    (hget : Cache.get calcache (cacheKey req.id req.anno) now = none)
    (hanno : atoi req.anno = none) :
    getCoursesCal env now calcache req =
      { response := plainText 400 "Invalid year", cache := calcache
        gets := 1, puts := 0, parses := 1, lookups := 0, fetches := 0 } := by
  unfold getCoursesCal
  rw [hget, hanno]

/-- Run equation: cache miss, numeric year, non-numeric id text. -/
lemma run_invalid_id (env : Env) (now : Int) (calcache : Cache) (req : Request)
    (annoInt : Int)
    (hget : Cache.get calcache (cacheKey req.id req.anno) now = none)
    (hanno : atoi req.anno = some annoInt)
    (hid : atoi req.id = none) :
    getCoursesCal env now calcache req =
      { response := plainText 400 "Invalid id", cache := calcache
        gets := 1, puts := 0, parses := 2, lookups := 0, fetches := 0 } := by
  unfold getCoursesCal
  rw [hget, hanno, hid]

/-- Run equation: cache miss, both numeric, unknown course. -/
lemma run_course_not_found (env : Env) (now : Int) (calcache : Cache)
    (req : Request) (annoInt idInt : Int)
    (hget : Cache.get calcache (cacheKey req.id req.anno) now = none)
    (hanno : atoi req.anno = some annoInt)
    (hid : atoi req.id = some idInt)
    (hcourse : env.findById idInt = none) :
    getCoursesCal env now calcache req =
      { response := plainText 404 "Course not found", cache := calcache
        gets := 1, puts := 0, parses := 2, lookups := 1, fetches := 0 } := by
  simp only [getCoursesCal, hget, hanno, hid, hcourse]

/-- Run equation: cache miss, course resolved, year out of range. -/
lemma run_year_out_of_range (env : Env) (now : Int) (calcache : Cache)
    (req : Request) (annoInt idInt : Int) (course : Course)
    (hget : Cache.get calcache (cacheKey req.id req.anno) now = none)
    (hanno : atoi req.anno = some annoInt)
    (hid : atoi req.id = some idInt)
    (hcourse : env.findById idInt = some course)
    (hrange : annoInt ≤ 0 ∨ annoInt > course.durataAnni) :
    getCoursesCal env now calcache req =
      { response := plainText 400 "Invalid year", cache := calcache
        gets := 1, puts := 0, parses := 2, lookups := 1, fetches := 0 } := by
  simp only [getCoursesCal, hget, hanno, hid, hcourse]
  rw [if_pos hrange]

/-- Run equation: valid request, timetable retrieval failure. -/
lemma run_timetable_error (env : Env) (now : Int) (calcache : Cache)
    (req : Request) (annoInt idInt : Int) (course : Course) (e : String)
    (hget : Cache.get calcache (cacheKey req.id req.anno) now = none)
    (hanno : atoi req.anno = some annoInt)
    (hid : atoi req.id = some idInt)
    (hcourse : env.findById idInt = some course)
    (hrange : ¬(annoInt ≤ 0 ∨ annoInt > course.durataAnni))
    (ht : env.getTimetable course annoInt
      (if req.curriculum ≠ "" then { value := req.curriculum } else {}) =
        Except.error e) :
    getCoursesCal env now calcache req =
      { response := plainText 500 "Unable to retrieve timetable", cache := calcache
        gets := 1, puts := 0, parses := 2, lookups := 1, fetches := 1 } := by
  simp only [getCoursesCal, hget, hanno, hid, hcourse]
  rw [if_neg hrange, ht]

/-- Run equation: valid request, synthesis done, serialization failure. -/
lemma run_serialize_error (env : Env) (now : Int) (calcache : Cache)
    (req : Request) (annoInt idInt : Int) (course : Course)
    (timetable : Timetable) (e : String)
    (hget : Cache.get calcache (cacheKey req.id req.anno) now = none)
    (hanno : atoi req.anno = some annoInt)
    (hid : atoi req.id = some idInt)
    (hcourse : env.findById idInt = some course)
    (hrange : ¬(annoInt ≤ 0 ∨ annoInt > course.durataAnni))
    (ht : env.getTimetable course annoInt
      (if req.curriculum ≠ "" then { value := req.curriculum } else {}) =
        Except.ok timetable)
    (hs : env.serializeTo (createCal timetable course annoInt) = Except.error e) :
    getCoursesCal env now calcache req =
      { response := plainText 500 "Unable to serialize calendar", cache := calcache
        gets := 1, puts := 0, parses := 2, lookups := 1, fetches := 1 } := by
  simp only [getCoursesCal, hget, hanno, hid, hcourse]
  rw [if_neg hrange]
  simp only [ht]
  rw [hs]

/-- Run equation: fully successful request, stored into the cache. -/
lemma run_success (env : Env) (now : Int) (calcache : Cache)
    (req : Request) (annoInt idInt : Int) (course : Course)
    (timetable : Timetable) (buf : Bytes)
    (hget : Cache.get calcache (cacheKey req.id req.anno) now = none)
    (hanno : atoi req.anno = some annoInt)
    (hid : atoi req.id = some idInt)
    (hcourse : env.findById idInt = some course)
    (hrange : ¬(annoInt ≤ 0 ∨ annoInt > course.durataAnni))
    (ht : env.getTimetable course annoInt
      (if req.curriculum ≠ "" then { value := req.curriculum } else {}) =
        Except.ok timetable)
    (hs : env.serializeTo (createCal timetable course annoInt) = Except.ok buf) :
    getCoursesCal env now calcache req =
      { response := successCalendar buf
        cache := Cache.set calcache (cacheKey req.id req.anno) buf now
          defaultExpiration
        gets := 1, puts := 1, parses := 2, lookups := 1, fetches := 1 } := by
  simp only [getCoursesCal, hget, hanno, hid, hcourse]
  rw [if_neg hrange]
  simp only [ht]
  rw [hs]

/-- Exhaustive shape of one handler invocation: a cache hit returning the
cached bytes unchanged; a non-200 rejection leaving the cache untouched
with no `Put`; or a full successful synthesis whose bytes are returned and
stored under the raw `id-anno` key. -/
lemma handler_shape (env : Env) (now : Int) (calcache : Cache) (req : Request) :
    (∃ b, Cache.get calcache (cacheKey req.id req.anno) now = some b ∧
      (getCoursesCal env now calcache req).response = successCalendar b ∧
      (getCoursesCal env now calcache req).cache = calcache) ∨
    ((getCoursesCal env now calcache req).response.status ≠ 200 ∧
      (getCoursesCal env now calcache req).cache = calcache ∧
      (getCoursesCal env now calcache req).puts = 0) ∨
    (∃ idInt annoInt course timetable buf,
      atoi req.id = some idInt ∧
      atoi req.anno = some annoInt ∧
      env.findById idInt = some course ∧
      env.getTimetable course annoInt
        (if req.curriculum ≠ "" then { value := req.curriculum } else {}) =
          Except.ok timetable ∧
      env.serializeTo (createCal timetable course annoInt) = Except.ok buf ∧
      (getCoursesCal env now calcache req).response = successCalendar buf ∧
      (getCoursesCal env now calcache req).cache =
        Cache.set calcache (cacheKey req.id req.anno) buf now defaultExpiration) := by
  rcases hget : Cache.get calcache (cacheKey req.id req.anno) now with _ | b
  case some =>
    rw [run_hit env now calcache req b hget]
    exact Or.inl ⟨b, rfl, rfl, rfl⟩
  case none =>
  rcases hanno : atoi req.anno with _ | annoInt
  case none =>
    rw [run_invalid_year env now calcache req hget hanno]
    exact Or.inr (Or.inl ⟨(by decide : ¬((400 : Nat) = 200)), rfl, rfl⟩)
  case some =>
  rcases hid : atoi req.id with _ | idInt
  case none =>
    rw [run_invalid_id env now calcache req annoInt hget hanno hid]
    exact Or.inr (Or.inl ⟨(by decide : ¬((400 : Nat) = 200)), rfl, rfl⟩)
  case some =>
  rcases hcourse : env.findById idInt with _ | course
  case none =>
    rw [run_course_not_found env now calcache req annoInt idInt hget hanno hid hcourse]
    exact Or.inr (Or.inl ⟨(by decide : ¬((404 : Nat) = 200)), rfl, rfl⟩)
  case some =>
  by_cases hrange : annoInt ≤ 0 ∨ annoInt > course.durataAnni
  case pos =>
    rw [run_year_out_of_range env now calcache req annoInt idInt course
      hget hanno hid hcourse hrange]
    exact Or.inr (Or.inl ⟨(by decide : ¬((400 : Nat) = 200)), rfl, rfl⟩)
  case neg =>
  rcases ht : env.getTimetable course annoInt
      (if req.curriculum ≠ "" then { value := req.curriculum } else {}) with e | timetable
  case error =>
    rw [run_timetable_error env now calcache req annoInt idInt course e
      hget hanno hid hcourse hrange ht]
    exact Or.inr (Or.inl ⟨(by decide : ¬((500 : Nat) = 200)), rfl, rfl⟩)
  case ok =>
  rcases hs : env.serializeTo (createCal timetable course annoInt) with e | buf
  case error =>
    rw [run_serialize_error env now calcache req annoInt idInt course timetable e
      hget hanno hid hcourse hrange ht hs]
    exact Or.inr (Or.inl ⟨(by decide : ¬((500 : Nat) = 200)), rfl, rfl⟩)
  case ok =>
    rw [run_success env now calcache req annoInt idInt course timetable buf
      hget hanno hid hcourse hrange ht hs]
    exact Or.inr (Or.inr ⟨idInt, annoInt, course, timetable, buf,
      rfl, rfl, hcourse, ht, hs, rfl, rfl⟩)

/-- C9: a request whose raw `id-anno` key is live in the cache is answered
directly from the cache: status 200 with the cached bytes, no `Atoi`
parse, no `FindById` lookup, no `GetTimetable` fetch, cache unchanged —
whatever the curriculum query value and however invalid the raw texts. -/
theorem cache_hit_fast_path (env : Env) (now : Int) (calcache : Cache)
    (req : Request) (v : Bytes)
    (hhit : Cache.get calcache (cacheKey req.id req.anno) now = some v) :
    (getCoursesCal env now calcache req).response = successCalendar v ∧
    (getCoursesCal env now calcache req).cache = calcache ∧
    (getCoursesCal env now calcache req).parses = 0 ∧
    (getCoursesCal env now calcache req).lookups = 0 ∧
    (getCoursesCal env now calcache req).fetches = 0 := by
  unfold getCoursesCal
  rw [hhit]
  exact ⟨rfl, rfl, rfl, rfl, rfl⟩

/-- C9 witness: a cache holding key "x-y" (neither component numeric)
answers a request with id "x", anno "y", curriculum "Z" from the cache. -/
theorem cache_hit_fast_path_witness :
    (getCoursesCal sampleEnv 7 ⟨[("x-y", ⟨"CACHED", 100⟩)]⟩ ⟨"x", "y", "Z"⟩).response =
      successCalendar "CACHED" ∧
    (getCoursesCal sampleEnv 7 ⟨[("x-y", ⟨"CACHED", 100⟩)]⟩ ⟨"x", "y", "Z"⟩).fetches = 0 := by
  have h := cache_hit_fast_path sampleEnv 7 ⟨[("x-y", ⟨"CACHED", 100⟩)]⟩
    ⟨"x", "y", "Z"⟩ "CACHED" (by decide)
  exact ⟨h.1, h.2.2.2.2⟩

/-- C8: the synthesized document's name is
`"<course display name> - <year> year"`, its description is the fixed
Italian sentence embedding the same year and course name, and the events
of the timetable slice are embedded verbatim; `createCal` is a pure
function, hence deterministic in its inputs. -/
theorem createCal_name_description (t : Timetable) (course : Course) (year : Int) :
    (createCal t course year).name =
      course.descrizione ++ " - " ++ toString year ++ " year" ∧
    (createCal t course year).description =
      "Orario delle lezioni del " ++ toString year ++
        " anno del corso di " ++ course.descrizione ∧
    (createCal t course year).events = t := by
  exact ⟨rfl, rfl, rfl⟩

/-- C7: every 200 response of the handler carries the calendar metadata:
`Content-Type: text/calendar; charset=utf-8`, a `Content-Disposition`
attachment header with an `.ics` filename, and permissive CORS headers
including `Access-Control-Allow-Origin: *`. -/
theorem success_response_headers (env : Env) (now : Int) (calcache : Cache)
    (req : Request)
    (h200 : (getCoursesCal env now calcache req).response.status = 200) :
    ("Content-Type", "text/calendar; charset=utf-8") ∈
      (getCoursesCal env now calcache req).response.headers ∧
    ("Content-Disposition", "attachment; filename=lezioni.ics") ∈
      (getCoursesCal env now calcache req).response.headers ∧
    ("Access-Control-Allow-Origin", "*") ∈
      (getCoursesCal env now calcache req).response.headers ∧
    ("Access-Control-Allow-Headers",
        "Content-Type, Content-Length, Accept-Encoding, Authorization") ∈
      (getCoursesCal env now calcache req).response.headers ∧
    ("Access-Control-Allow-Methods", "GET, HEAD, OPTIONS") ∈
      (getCoursesCal env now calcache req).response.headers := by
  rcases handler_shape env now calcache req with ⟨b, _, hresp, _⟩ | ⟨hne, _, _⟩ |
    ⟨idInt, annoInt, course, timetable, buf, _, _, _, _, _, hresp, _⟩
  · rw [hresp]
    refine ⟨?_, ?_, ?_, ?_, ?_⟩ <;> simp [successCalendar]
  · exact absurd h200 hne
  · rw [hresp]
    refine ⟨?_, ?_, ?_, ?_, ?_⟩ <;> simp [successCalendar]

/-- C7 witness: a concrete successful request carries the calendar
content type. -/
theorem success_response_headers_witness :
    ("Content-Type", "text/calendar; charset=utf-8") ∈
      (getCoursesCal sampleEnv 0 Cache.empty ⟨"42", "1", ""⟩).response.headers :=
  (success_response_headers sampleEnv 0 Cache.empty ⟨"42", "1", ""⟩ (by decide)).1

/-- C5: an invocation that does not end in a 200 leaves the cache
untouched, and any invocation preserves the invariant that every cache
entry is the byte-for-byte serialization of a successful synthesis for
its key; no failure result is ever stored. -/
theorem error_leaves_cache_unchanged (env : Env) (now : Int) (calcache : Cache)
    (req : Request) :
    ((getCoursesCal env now calcache req).response.status ≠ 200 →
      (getCoursesCal env now calcache req).cache = calcache) ∧
    (CacheWF env calcache →
      CacheWF env (getCoursesCal env now calcache req).cache) := by
  rcases handler_shape env now calcache req with ⟨b, hget, hresp, hcache⟩ |
    ⟨hne, hcache, _⟩ |
    ⟨idInt, annoInt, course, timetable, buf, hid, hanno, hcourse, ht, hs, hresp, hcache⟩
  · exact ⟨fun _ => hcache, fun hwf => by rw [hcache]; exact hwf⟩
  · exact ⟨fun _ => hcache, fun hwf => by rw [hcache]; exact hwf⟩
  · constructor
    · intro h
      rw [hresp] at h
      exact absurd rfl h
    · intro hwf
      rw [hcache]
      intro kv hkv
      rcases List.mem_cons.mp hkv with heq | hmem
      · subst heq
        exact ⟨req.id, req.anno, idInt, annoInt, course,
          (if req.curriculum ≠ "" then { value := req.curriculum } else {}),
          timetable, rfl, hid, hanno, hcourse, ht, hs⟩
      · exact hwf kv (List.mem_of_mem_filter hmem)

/-- C5 witness: a failing request (year out of range for course 42) leaves
the empty cache empty, and a successful request preserves the invariant
starting from the empty cache. -/
theorem error_leaves_cache_unchanged_witness :
    (getCoursesCal sampleEnv 0 Cache.empty ⟨"42", "99", ""⟩).cache = Cache.empty ∧
    CacheWF sampleEnv (getCoursesCal sampleEnv 0 Cache.empty ⟨"42", "1", ""⟩).cache :=
  ⟨(error_leaves_cache_unchanged sampleEnv 0 Cache.empty ⟨"42", "99", ""⟩).1 (by decide),
   (error_leaves_cache_unchanged sampleEnv 0 Cache.empty ⟨"42", "1", ""⟩).2
     (fun kv hkv => absurd hkv (List.not_mem_nil kv))⟩

/-- A cache-missing request that parses, resolves and is in range reaches
the timetable fetch exactly once, whatever the fetch or serialization
outcome. -/
lemma valid_request_fetches (env : Env) (now : Int) (calcache : Cache)
    (req : Request) (annoInt idInt : Int) (course : Course)
    (hmiss : Cache.get calcache (cacheKey req.id req.anno) now = none)
    (hanno : atoi req.anno = some annoInt)
    (hid : atoi req.id = some idInt)
    (hcourse : env.findById idInt = some course)
    (hy : 1 ≤ annoInt ∧ annoInt ≤ course.durataAnni) :
    (getCoursesCal env now calcache req).fetches = 1 := by
  have hrange : ¬(annoInt ≤ 0 ∨ annoInt > course.durataAnni) := by omega
  rcases ht : env.getTimetable course annoInt
      (if req.curriculum ≠ "" then { value := req.curriculum } else {}) with e | timetable
  · rw [run_timetable_error env now calcache req annoInt idInt course e
      hmiss hanno hid hcourse hrange ht]
  · rcases hs : env.serializeTo (createCal timetable course annoInt) with e | buf
    · rw [run_serialize_error env now calcache req annoInt idInt course timetable e
        hmiss hanno hid hcourse hrange ht hs]
    · rw [run_success env now calcache req annoInt idInt course timetable buf
        hmiss hanno hid hcourse hrange ht hs]

/-- C6: on a cache miss with parse and course resolution done, the request
is accepted (reaches the timetable fetch) exactly when
`1 ≤ year ≤ course.DurataAnni`; otherwise the handler answers
400 "Invalid year" without fetching. -/
theorem year_range_validation (env : Env) (now : Int) (calcache : Cache)
    (req : Request) (annoInt idInt : Int) (course : Course)
    (hmiss : Cache.get calcache (cacheKey req.id req.anno) now = none)
    (hanno : atoi req.anno = some annoInt)
    (hid : atoi req.id = some idInt)
    (hcourse : env.findById idInt = some course) :
    (1 ≤ annoInt ∧ annoInt ≤ course.durataAnni →
      (getCoursesCal env now calcache req).fetches = 1) ∧
    (annoInt ≤ 0 ∨ annoInt > course.durataAnni →
      (getCoursesCal env now calcache req).response = plainText 400 "Invalid year" ∧
      (getCoursesCal env now calcache req).fetches = 0) := by
  constructor
  · intro hy
    exact valid_request_fetches env now calcache req annoInt idInt course
      hmiss hanno hid hcourse hy
  · intro hy
    rw [run_year_out_of_range env now calcache req annoInt idInt course
      hmiss hanno hid hcourse hy]
    exact ⟨rfl, rfl⟩

/-- C6 witness: year 1 of the three-year course 42 is accepted and
fetched; year 5 is rejected with 400 "Invalid year". -/
theorem year_range_validation_witness :
    (getCoursesCal sampleEnv 0 Cache.empty ⟨"42", "1", ""⟩).fetches = 1 ∧
    (getCoursesCal sampleEnv 0 Cache.empty ⟨"42", "5", ""⟩).response =
      plainText 400 "Invalid year" :=
  ⟨(year_range_validation sampleEnv 0 Cache.empty ⟨"42", "1", ""⟩ 1 42 sampleCourse
      (by decide) (by decide) (by decide) (by decide)).1 (by decide),
   ((year_range_validation sampleEnv 0 Cache.empty ⟨"42", "5", ""⟩ 5 42 sampleCourse
      (by decide) (by decide) (by decide) (by decide)).2 (by decide)).1⟩

/-- C2 counterexample: a request whose year text "x" fails validation is
still preceded by a cache probe — the handler performs one cache `Get`
before any validation, so validation does not strictly precede the cache
lookup and the rejection is not reached "without ever performing a cache
Get". -/
theorem validation_before_cache_counterexample :
    atoi "x" = none ∧
    (getCoursesCal sampleEnv 0 Cache.empty ⟨"42", "x", ""⟩).response.status = 400 ∧
    (getCoursesCal sampleEnv 0 Cache.empty ⟨"42", "x", ""⟩).gets = 1 := by
  decide

/-- C2 amended: a validation-failing request whose raw key misses the
cache is answered 400 with no cache `Put` and an unchanged cache, but
exactly one cache `Get` has been performed (the probe precedes
validation). -/
theorem validation_rejection_no_put (env : Env) (now : Int) (calcache : Cache)
    (req : Request)
    (hmiss : Cache.get calcache (cacheKey req.id req.anno) now = none)
    (hbad : atoi req.anno = none ∨ atoi req.id = none ∨
      ∃ annoInt idInt course, atoi req.anno = some annoInt ∧
        atoi req.id = some idInt ∧ env.findById idInt = some course ∧
        (annoInt ≤ 0 ∨ annoInt > course.durataAnni)) :
    (getCoursesCal env now calcache req).response.status = 400 ∧
    (getCoursesCal env now calcache req).puts = 0 ∧
    (getCoursesCal env now calcache req).cache = calcache ∧
    (getCoursesCal env now calcache req).gets = 1 := by
  rcases hbad with hanno | hid | ⟨annoInt, idInt, course, hanno, hid, hcourse, hrange⟩
  · rw [run_invalid_year env now calcache req hmiss hanno]
    exact ⟨rfl, rfl, rfl, rfl⟩
  · rcases hanno : atoi req.anno with _ | annoInt
    · rw [run_invalid_year env now calcache req hmiss hanno]
      exact ⟨rfl, rfl, rfl, rfl⟩
    · rw [run_invalid_id env now calcache req annoInt hmiss hanno hid]
      exact ⟨rfl, rfl, rfl, rfl⟩
  · rw [run_year_out_of_range env now calcache req annoInt idInt course
      hmiss hanno hid hcourse hrange]
    exact ⟨rfl, rfl, rfl, rfl⟩

/-- C2 amended witness: the concrete bad-year request is answered 400 with
no `Put`. -/
theorem validation_rejection_no_put_witness :
    (getCoursesCal sampleEnv 3 Cache.empty ⟨"42", "x", ""⟩).response.status = 400 ∧
    (getCoursesCal sampleEnv 3 Cache.empty ⟨"42", "x", ""⟩).puts = 0 :=
  ⟨(validation_rejection_no_put sampleEnv 3 Cache.empty ⟨"42", "x", ""⟩ (by decide)
      (Or.inl (by decide))).1,
   (validation_rejection_no_put sampleEnv 3 Cache.empty ⟨"42", "x", ""⟩ (by decide)
      (Or.inl (by decide))).2.1⟩

/-- C3 counterexample: for the unknown course id 9999 with non-numeric
year text "x", the handler answers 400 "Invalid year" (the year parse
runs before the course lookup), not 404, contradicting "NotFound
regardless of the year value supplied (including non-numeric year
text)". -/
theorem unknown_course_404_counterexample :
    sampleEnv.findById 9999 = none ∧
    (getCoursesCal sampleEnv 0 Cache.empty ⟨"9999", "x", ""⟩).response.status = 400 ∧
    (getCoursesCal sampleEnv 0 Cache.empty ⟨"9999", "x", ""⟩).response.status ≠ 404 := by
  decide

/-- C3 amended: on a cache miss, an unknown course id with a numeric year
text is answered 404 "Course not found" whatever the year value, and the
timetable source is never called; with a non-numeric year text the
handler instead answers 400 "Invalid year" first — still without calling
the timetable source. -/
theorem unknown_course_not_found (env : Env) (now : Int) (calcache : Cache)
    (req : Request)
    (hmiss : Cache.get calcache (cacheKey req.id req.anno) now = none) :
    (∀ annoInt idInt, atoi req.anno = some annoInt → atoi req.id = some idInt →
      env.findById idInt = none →
      (getCoursesCal env now calcache req).response = plainText 404 "Course not found" ∧
      (getCoursesCal env now calcache req).fetches = 0) ∧
    (atoi req.anno = none →
      (getCoursesCal env now calcache req).response = plainText 400 "Invalid year" ∧
      (getCoursesCal env now calcache req).fetches = 0) := by
  constructor
  · intro annoInt idInt hanno hid hcourse
    rw [run_course_not_found env now calcache req annoInt idInt hmiss hanno hid hcourse]
    exact ⟨rfl, rfl⟩
  · intro hanno
    rw [run_invalid_year env now calcache req hmiss hanno]
    exact ⟨rfl, rfl⟩

/-- C3 amended witness: unknown course 9999 with numeric year 2 gives 404;
with year text "x" it gives 400. -/
theorem unknown_course_not_found_witness :
    (getCoursesCal sampleEnv 0 Cache.empty ⟨"9999", "2", ""⟩).response =
      plainText 404 "Course not found" ∧
    (getCoursesCal sampleEnv 0 Cache.empty ⟨"9999", "x", ""⟩).response =
      plainText 400 "Invalid year" :=
  ⟨((unknown_course_not_found sampleEnv 0 Cache.empty ⟨"9999", "2", ""⟩ (by decide)).1
      2 9999 (by decide) (by decide) (by decide)).1,
   ((unknown_course_not_found sampleEnv 0 Cache.empty ⟨"9999", "x", ""⟩ (by decide)).2
      (by decide)).1⟩

/-- A freshly stored entry is returned by `Get` under the same key until
its expiry instant. -/
lemma get_set_self (c : Cache) (k : String) (v : Bytes) (now ttl t : Int)
    (h : t ≤ now + ttl) :
    Cache.get (Cache.set c k v now ttl) k t = some v := by
  simp only [Cache.get, Cache.set, List.lookup, beq_self_eq_true]
  rw [if_neg (by omega)]

/-- Storing under one key does not change `Get` under any other key. -/
lemma lookup_filter_ne (k k2 : String) (hne : k2 ≠ k) :
    ∀ l : List (String × CacheItem),
      (l.filter (fun p => p.1 ≠ k)).lookup k2 = l.lookup k2 := by
  intro l
  induction l with
  | nil => rfl
  | cons hd tl ih =>
    obtain ⟨a, b⟩ := hd
    by_cases hhd : a = k
    · have hk2a : (k2 == a) = false := by
        rw [beq_eq_false_iff_ne]
        intro h
        exact hne (h.trans hhd)
      rw [List.filter_cons, if_neg (by simp [hhd])]
      rw [ih]
      simp only [List.lookup, hk2a]
    · rw [List.filter_cons, if_pos (by simp [hhd])]
      simp only [List.lookup, ih]

/-- `Get` under a different key sees through a `Set`. -/
lemma get_set_ne (c : Cache) (k k2 : String) (v : Bytes) (now ttl t : Int)
    (hne : k2 ≠ k) :
    Cache.get (Cache.set c k v now ttl) k2 t = Cache.get c k2 t := by
  have hk2 : (k2 == k) = false := beq_eq_false_iff_ne.mpr hne
  simp only [Cache.get, Cache.set, List.lookup, hk2, lookup_filter_ne k k2 hne]

/-- C4: a second identical request within the TTL window of a first,
successfully computed one is answered byte-identically from the cache and
does not invoke the timetable source. -/
theorem repeat_request_cached (env : Env) (t1 t2 : Int) (calcache : Cache)
    (req : Request)
    (hmiss : Cache.get calcache (cacheKey req.id req.anno) t1 = none)
    (h200 : (getCoursesCal env t1 calcache req).response.status = 200)
    (httl : t2 ≤ t1 + defaultExpiration) :
    (getCoursesCal env t2 (getCoursesCal env t1 calcache req).cache req).response =
      (getCoursesCal env t1 calcache req).response ∧
    (getCoursesCal env t2 (getCoursesCal env t1 calcache req).cache req).fetches = 0 := by
  rcases handler_shape env t1 calcache req with ⟨b, hget, _, _⟩ | ⟨hne, _, _⟩ |
    ⟨idInt, annoInt, course, timetable, buf, hid, hanno, hcourse, ht, hs, hresp, hcache⟩
  · rw [hget] at hmiss
    exact Option.noConfusion hmiss
  · exact absurd h200 hne
  · have hhit : Cache.get (getCoursesCal env t1 calcache req).cache
        (cacheKey req.id req.anno) t2 = some buf := by
      rw [hcache]
      exact get_set_self calcache (cacheKey req.id req.anno) buf t1
        defaultExpiration t2 httl
    rw [run_hit env t2 (getCoursesCal env t1 calcache req).cache req buf hhit, hresp]
    exact ⟨rfl, rfl⟩

/-- C4 witness: the same request repeated one time unit later is served
from the cache without a fetch. -/
theorem repeat_request_cached_witness :
    (getCoursesCal sampleEnv 1 (getCoursesCal sampleEnv 0 Cache.empty
        ⟨"42", "1", ""⟩).cache ⟨"42", "1", ""⟩).response =
      (getCoursesCal sampleEnv 0 Cache.empty ⟨"42", "1", ""⟩).response ∧
    (getCoursesCal sampleEnv 1 (getCoursesCal sampleEnv 0 Cache.empty
        ⟨"42", "1", ""⟩).cache ⟨"42", "1", ""⟩).fetches = 0 :=
  repeat_request_cached sampleEnv 0 1 Cache.empty ⟨"42", "1", ""⟩
    (by decide) (by decide) (by decide)

/-- C1: the cache key is `id-anno` and omits the curriculum token, so a
result synthesized and cached for curriculum "A" is returned verbatim to
a later request for curriculum "B" on the same course and year, with no
second synthesis call — even though the timetable source distinguishes
the two curricula. -/
theorem curriculum_cache_aliasing :
    (getCoursesCal curDependentEnv 0 Cache.empty ⟨"42", "1", "A"⟩).response.body = "A" ∧
    (getCoursesCal curDependentEnv 0
        (getCoursesCal curDependentEnv 0 Cache.empty ⟨"42", "1", "A"⟩).cache
        ⟨"42", "1", "B"⟩).response.body = "A" ∧
    (getCoursesCal curDependentEnv 0
        (getCoursesCal curDependentEnv 0 Cache.empty ⟨"42", "1", "A"⟩).cache
        ⟨"42", "1", "B"⟩).fetches = 0 ∧
    (getCoursesCal curDependentEnv 0 Cache.empty ⟨"42", "1", "B"⟩).response.body = "B" := by
  decide

/-- A decimal digit is not the dash character. -/
lemma digit_ne_dash (ch : Char) (h : ch.isDigit = true) : ch ≠ '-' := by
  intro hch
  rw [hch] at h
  exact absurd h (by decide)

/-- A successful digit-run parse means every character was a digit. -/
lemma parseDigits_some_all_digits (neg : Bool) (ds : List Char) (v : Int)
    (h : parseDigits neg ds = some v) : ds.all Char.isDigit = true := by
  unfold parseDigits at h
  by_cases h1 : ds.isEmpty
  · rw [if_pos h1] at h
    exact Option.noConfusion h
  · rw [if_neg h1] at h
    by_cases h2 : ds.all Char.isDigit
    · exact h2
    · rw [if_neg h2] at h
      exact Option.noConfusion h

/-- Run equation for `atoi` on a non-empty character list. -/
lemma atoi_cons (c0 : Char) (rest : List Char) (s : String)
    (hd : s.data = c0 :: rest) :
    atoi s = if c0 = '-' then parseDigits true rest
      else if c0 = '+' then parseDigits false rest
      else parseDigits false (c0 :: rest) := by
  unfold atoi
  rw [hd]

/-- A string accepted by `atoi` is non-empty and, past its first
character, consists of digits only — in particular no inner dash. -/
lemma atoi_tail_no_dash (s : String) (v : Int) (h : atoi s = some v) :
    s.data ≠ [] ∧ ∀ ch ∈ s.data.tail, ch ≠ '-' := by
  rcases hd : s.data with _ | ⟨c0, rest⟩
  · rw [show atoi s = none by unfold atoi; rw [hd]] at h
    exact Option.noConfusion h
  · rw [atoi_cons c0 rest s hd] at h
    refine ⟨by simp [hd], ?_⟩
    rw [List.tail_cons]
    intro ch hch
    by_cases h1 : c0 = '-'
    · rw [if_pos h1] at h
      exact digit_ne_dash ch (List.all_eq_true.mp
        (parseDigits_some_all_digits _ _ _ h) ch hch)
    · rw [if_neg h1] at h
      by_cases h2 : c0 = '+'
      · rw [if_pos h2] at h
        exact digit_ne_dash ch (List.all_eq_true.mp
          (parseDigits_some_all_digits _ _ _ h) ch hch)
      · rw [if_neg h2] at h
        exact digit_ne_dash ch (List.all_eq_true.mp
          (parseDigits_some_all_digits _ _ _ h) ch (List.mem_cons_of_mem c0 hch))

/-- Splitting at a dash is unambiguous when neither left part contains a
dash. -/
lemma append_dash_inj (b d : List Char) :
    ∀ a c : List Char, (∀ ch ∈ a, ch ≠ '-') → (∀ ch ∈ c, ch ≠ '-') →
      a ++ '-' :: b = c ++ '-' :: d → a = c ∧ b = d := by
  intro a
  induction a with
  | nil =>
    intro c _ hc h
    cases c with
    | nil => simpa using h
    | cons y ys =>
      rw [List.nil_append, List.cons_append] at h
      injection h with h1 h2
      exact absurd h1.symm (hc y (List.mem_cons_self y ys))
  | cons x xs ih =>
    intro c hx hc h
    cases c with
    | nil =>
      rw [List.cons_append, List.nil_append] at h
      injection h with h1 h2
      exact absurd h1 (hx x (List.mem_cons_self x xs))
    | cons y ys =>
      rw [List.cons_append, List.cons_append] at h
      injection h with h1 h2
      obtain ⟨h3, h4⟩ := ih ys (fun ch hch => hx ch (List.mem_cons_of_mem x hch))
        (fun ch hch => hc ch (List.mem_cons_of_mem y hch)) h2
      exact ⟨by rw [h1, h3], h4⟩

/-- The character list of a cache key. -/
lemma cacheKey_data (id anno : String) :
    (cacheKey id anno).data = id.data ++ '-' :: anno.data := by
  show (id ++ "-" ++ anno).data = id.data ++ '-' :: anno.data
  rw [String.data_append, String.data_append]
  rw [show ("-" : String).data = ['-'] from rfl, List.append_assoc]
  rfl

/-- When both id texts parse as integers, equal cache keys force equal raw
components: the `id-anno` fingerprint is injective on parseable ids. -/
lemma cacheKey_inj (id1 anno1 id2 anno2 : String) (i1 i2 : Int)
    (h1 : atoi id1 = some i1) (h2 : atoi id2 = some i2)
    (hk : cacheKey id1 anno1 = cacheKey id2 anno2) :
    id1 = id2 ∧ anno1 = anno2 := by
  have hda : id1.data ++ '-' :: anno1.data = id2.data ++ '-' :: anno2.data := by
    rw [← cacheKey_data, ← cacheKey_data, hk]
  obtain ⟨hne1, htail1⟩ := atoi_tail_no_dash id1 i1 h1
  obtain ⟨hne2, htail2⟩ := atoi_tail_no_dash id2 i2 h2
  rcases hx : id1.data with _ | ⟨x, xs⟩
  · exact absurd hx hne1
  rcases hy : id2.data with _ | ⟨y, ys⟩
  · exact absurd hy hne2
  rw [hx, hy, List.cons_append, List.cons_append] at hda
  injection hda with hhead htails
  have hxs : ∀ ch ∈ xs, ch ≠ '-' := by
    intro ch hch
    exact htail1 ch (by rw [hx, List.tail_cons]; exact hch)
  have hys : ∀ ch ∈ ys, ch ≠ '-' := by
    intro ch hch
    exact htail2 ch (by rw [hy, List.tail_cons]; exact hch)
  obtain ⟨hts, hannos⟩ := append_dash_inj anno1.data anno2.data xs ys hxs hys htails
  constructor
  · apply String.ext
    rw [hx, hy, hhead, hts]
  · exact String.ext hannos

/-- C10: the cache key is built from the raw path texts, so two requests
whose id or year texts differ — even when they parse to the same integers,
as with year "1" versus "01" — occupy distinct cache keys, and each
performs its own timetable fetch: the second request is not served from
the entry stored by the first. -/
theorem raw_key_distinct_entries (env : Env) (t1 t2 : Int) (calcache : Cache)
    (req1 req2 : Request) (i1 a1 i2 a2 : Int) (course1 course2 : Course)
    (hid1 : atoi req1.id = some i1) (hanno1 : atoi req1.anno = some a1)
    (hid2 : atoi req2.id = some i2) (hanno2 : atoi req2.anno = some a2)
    (hne : req1.id ≠ req2.id ∨ req1.anno ≠ req2.anno)
    (hmiss1 : Cache.get calcache (cacheKey req1.id req1.anno) t1 = none)
    (hmiss2 : Cache.get calcache (cacheKey req2.id req2.anno) t2 = none)
    (hc1 : env.findById i1 = some course1)
    (hy1 : 1 ≤ a1 ∧ a1 ≤ course1.durataAnni)
    (hc2 : env.findById i2 = some course2)
    (hy2 : 1 ≤ a2 ∧ a2 ≤ course2.durataAnni) :
    cacheKey req1.id req1.anno ≠ cacheKey req2.id req2.anno ∧
    (getCoursesCal env t1 calcache req1).fetches = 1 ∧
    (getCoursesCal env t2 (getCoursesCal env t1 calcache req1).cache req2).fetches = 1 := by
  have hkey : cacheKey req1.id req1.anno ≠ cacheKey req2.id req2.anno := by
    intro h
    rcases cacheKey_inj req1.id req1.anno req2.id req2.anno i1 i2 hid1 hid2 h with ⟨e1, e2⟩
    rcases hne with hne | hne
    · exact hne e1
    · exact hne e2
  have hmiss2' : Cache.get (getCoursesCal env t1 calcache req1).cache
      (cacheKey req2.id req2.anno) t2 = none := by
    rcases handler_shape env t1 calcache req1 with ⟨b, _, _, hcache⟩ |
      ⟨_, hcache, _⟩ | ⟨_, _, _, _, buf, _, _, _, _, _, _, hcache⟩
    · rw [hcache]; exact hmiss2
    · rw [hcache]; exact hmiss2
    · rw [hcache, get_set_ne calcache (cacheKey req1.id req1.anno)
        (cacheKey req2.id req2.anno) buf t1 defaultExpiration t2 (Ne.symm hkey)]
      exact hmiss2
  exact ⟨hkey,
    valid_request_fetches env t1 calcache req1 a1 i1 course1 hmiss1 hanno1 hid1 hc1 hy1,
    valid_request_fetches env t2 (getCoursesCal env t1 calcache req1).cache req2
      a2 i2 course2 hmiss2' hanno2 hid2 hc2 hy2⟩

/-- C10 witness: year texts "1" and "01" both denote year 1 of course 42,
yet the two requests use distinct keys and the second fetches again after
the first ran. -/
theorem raw_key_distinct_entries_witness :
    cacheKey "42" "1" ≠ cacheKey "42" "01" ∧
    (getCoursesCal sampleEnv 0 Cache.empty ⟨"42", "1", ""⟩).fetches = 1 ∧
    (getCoursesCal sampleEnv 0 (getCoursesCal sampleEnv 0 Cache.empty
        ⟨"42", "1", ""⟩).cache ⟨"42", "01", ""⟩).fetches = 1 :=
  raw_key_distinct_entries sampleEnv 0 0 Cache.empty
    ⟨"42", "1", ""⟩ ⟨"42", "01", ""⟩ 42 1 42 1 sampleCourse sampleCourse
    (by decide) (by decide) (by decide) (by decide) (Or.inr (by decide))
    (by decide) (by decide) (by decide) (by decide) (by decide) (by decide)

end UniboCal
